import Mathlib

/-!
Verification of the Cura UI-integration excerpt: the setting-resolution
engine (`cura/Settings/CuraPropertyProvider.py`) and the slice-job payload
builder (`plugins/CuraEngineBackend/StartSliceJob.py`), shallowly embedded
in Lean 4. Definitions are transcribed from the Python source; where a
claim is compared against the specification's own wording, a separate,
clearly named definition follows the spec text.
-/

set_option autoImplicit false

namespace Cura

/-! ## Part 1: the configuration-stack data model

`UM.Settings.SettingInstance.InstanceState` (external library enum used by
`CuraPropertyProvider._determineInherit`). -/

inductive InstanceState where
  | Default
  | Calculated
  | User
deriving DecidableEq, Repr

/-- A container's raw value for the bound key: either a literal value or a
`SettingFunction` carrying the list of keys returned by
`getUsedSettingKeys()`. -/
inductive SettingValue where
  | lit (s : String)
  | func (usedKeys : List String)
deriving DecidableEq, Repr

/-- One container of a configuration stack, as seen by the bound key.
`unsupported` models a container without per-setting value lookup, whose
`getProperty` raises `AttributeError`; `supported v` models a container
whose `getProperty(key, "value")` returns `v` (`none` is Python `None`). -/
inductive Container where
  | unsupported
  | supported (value : Option SettingValue)
deriving DecidableEq, Repr

/-- A configuration stack: an ordered container list (highest priority
first) and an optional next (parent) stack, ending at the global stack. -/
inductive Stack where
  | mk (containers : List Container) (next : Option Stack)

def Stack.containers : Stack → List Container
  | .mk cs _ => cs

def Stack.getNextStack : Stack → Option Stack
  | .mk _ n => n

/-- The container-collection loop of `_determineInherit`:
`while stack: containers.extend(stack.getContainers()); stack = stack.getNextStack()`. -/
def Stack.collectContainers : Stack → List Container
  | .mk cs none => cs
  | .mk cs (some s) => cs ++ s.collectContainers

/-- `stack.getTop()` — the container at index 0, or `None` for an empty
container list. -/
def Stack.getTop (s : Stack) : Option Container :=
  s.containers.head?

/-! ## Part 2: `CuraPropertyProvider._determineInherit` -/

/-- The non-`value` properties of the bound key as resolved by the target
stack: `getProperty(key, "resolve" / "state" / "enabled")`. `resolve` is
`none` for Python `None`. -/
structure KeyProps where
  resolve : Option String
  state : InstanceState
  enabled : Bool
deriving DecidableEq, Repr

/-- Whether a container value read in the walk is a `SettingFunction` at
least one of whose used keys is a real setting key of the stack
(`setting_key in self._stack.getAllKeys()`). -/
def SettingValue.qualifies (allKeys : List String) : SettingValue → Bool
  | .lit _ => false
  | .func usedKeys => usedKeys.any (fun k => allKeys.contains k)

/-- The container walk of `_determineInherit`, with the two running flags
`has_setting_function` (`hsf`) and `has_non_function_value` (`hnfv`).
Each iteration mirrors the Python loop body: an `AttributeError` container
is skipped; a `None` value leaves both flags alone and then checks the
break condition; a non-`None` value reassigns `has_setting_function`
(true only for a qualifying function), and if it came out false records
`has_non_function_value = true` and continues, otherwise breaks. -/
def inheritLoop (allKeys : List String) : List Container → Bool → Bool → Bool
  | [], hsf, hnfv => hsf && hnfv
  | c :: rest, hsf, hnfv =>
    match c with
    | .unsupported => inheritLoop allKeys rest hsf hnfv
    | .supported none =>
      if hsf then hsf && hnfv
      else inheritLoop allKeys rest hsf hnfv
    | .supported (some v) =>
      if v.qualifies allKeys then true && hnfv
      else inheritLoop allKeys rest false true

/-- Errors the resolution code can raise. `attrError` is an uncaught
`AttributeError` (e.g. `getTop()` returning `None` or a top container with
no `getProperty`); `nameErrorLogger` is the `NameError` raised by the
reference to the never-imported name `Logger` in `_updateStack`. -/
inductive PyError where
  | attrError
  | nameErrorLogger
deriving DecidableEq, Repr

/-- `CuraPropertyProvider._determineInherit`, for the bound key: the four
initial guards followed by the container walk over the stack chain. -/
def determineInherit (props : KeyProps) (stack : Stack) (allKeys : List String) :
    Except PyError Bool :=
  if props.resolve.isSome then .ok false
  else if props.state ≠ InstanceState.User then .ok false
  else if !props.enabled then .ok false
  else
    match stack.getTop with
    | none => .error .attrError
    | some .unsupported => .error .attrError
    | some (.supported tv) =>
      match tv with
      | some (.func _) => .ok false
      | _ => .ok (inheritLoop allKeys stack.collectContainers false false)

/-! ## Part 3: `CuraPropertyProvider._updateStack` -/

/-- Names bound at module scope of `cura/Settings/CuraPropertyProvider.py`,
transcribed from its `import` statements and top-level definitions. The
module never imports `Logger`, so the `Logger.log` call in `_updateStack`
resolves against this list and raises `NameError`. -/
def curaPropertyProviderModuleNames : List String :=
  ["pyqtProperty", "pyqtSignal", "Application", "SettingPropertyProvider",
   "InstanceState", "SettingFunction", "ExtruderManager", "CuraPropertyProvider"]

/-- The properties `_updateStack` reads from the global stack: the value of
`machine_extruder_count` and, for the bound key, `settable_per_extruder`
(by Python truthiness) and `limit_to_extruder` (`none` is Python `None`). -/
structure GlobalStackProps where
  machineExtruderCount : Int
  settablePerExtruder : Bool
  limitToExtruder : Option Int
deriving DecidableEq, Repr

/-- Modelled from the spec: `ExtruderManager.getExtruderStack(index)` (the
`ExtruderManager` module is part of this repository but absent from the
excerpt) returns the stack registered at that extruder index, or nothing
when no extruder exists there. Extruder stacks are represented by their
identifiers, in index order. -/
def getExtruderStack (extruders : List String) (index : Int) : Option String :=
  if index < 0 then none else extruders.get? index.toNat

/-- The inputs `_determineInherit` reads through `self`, bundled so that a
resolution pass can recompute `shouldShowInherit`. -/
structure InheritEnv where
  props : KeyProps
  stack : Stack
  allKeys : List String

def InheritEnv.eval (e : InheritEnv) : Except PyError Bool :=
  determineInherit e.props e.stack e.allKeys

/-- The environment a `_updateStack` pass reads: the bound key (`none` or
`""` are falsy), the global container stack, the extruder topology, the
active extruder's stack id, and the data for the inherit recomputation. -/
structure UpdateEnv where
  key : Option String
  globalStack : Option GlobalStackProps
  extruders : List String
  activeExtruderStackId : String
  inheritEnv : InheritEnv

/-- The provider state a resolution pass may write: the target stack id
(last `setContainerStackId` argument) and the cached
`_should_show_inherit` flag. -/
structure ProviderState where
  containerStackId : Option String
  shouldShowInherit : Bool
deriving DecidableEq, Repr

/-- The final branch of `_updateStack`: set the target to the active
extruder's stack id, then `_updateShouldShowInherit()`. -/
def updateStackActiveBranch (e : UpdateEnv) (_st : ProviderState) :
    Except PyError ProviderState :=
  match e.inheritEnv.eval with
  | .error err => .error err
  | .ok b =>
    .ok { containerStackId := some e.activeExtruderStackId, shouldShowInherit := b }

/-- `CuraPropertyProvider._updateStack`: resolve the target stack for the
bound key. Guard order, branch order and the per-branch effects follow the
source; the missing-extruder branch evaluates the name `Logger`, which is
not bound in the module, hence the `NameError`. -/
def updateStack (e : UpdateEnv) (st : ProviderState) : Except PyError ProviderState :=
  match e.key with
  | none => .ok st
  | some k =>
    if k = "" then .ok st
    else
      match e.globalStack with
      | none => .ok st
      | some gs =>
        if gs.machineExtruderCount ≤ 1 then
          .ok { st with containerStackId := some "global" }
        else if !gs.settablePerExtruder then
          .ok { st with containerStackId := some "global" }
        else
          match gs.limitToExtruder with
          | some n =>
            if n ≥ 0 then
              match getExtruderStack e.extruders n with
              | some sid => .ok { st with containerStackId := some sid }
              | none =>
                if curaPropertyProviderModuleNames.contains "Logger" then .ok st
                else .error .nameErrorLogger
            else updateStackActiveBranch e st
          | none => updateStackActiveBranch e st

/-! ## Part 4: `StartSliceJob` — vertices and per-object settings -/

/-- A mesh vertex. Coordinates are modelled as integers: the two numpy
operations in `StartSliceJob.run` (a column swap and a column negation)
are exact on any numeric representation. -/
structure Vertex where
  x : Int
  y : Int
  z : Int
deriving DecidableEq, Repr

/-- `verts[:, [1, 2]] = verts[:, [2, 1]]`, applied to one row: swap the y
and z columns. -/
def swapYZ (v : Vertex) : Vertex :=
  { x := v.x, y := v.z, z := v.y }

/-- `verts[:, 1] *= -1`, applied to one row: negate the y column. -/
def negateY (v : Vertex) : Vertex :=
  { x := v.x, y := -v.y, z := v.z }

/-- The vertex-buffer transform of `StartSliceJob.run`: both column
operations, applied row-wise over the whole buffer. -/
def engineVertices (vs : List Vertex) : List Vertex :=
  (vs.map swapYZ).map negateY

/-- The transform the spec claims: `(x, y, z)` maps to `(x, z, -y)`. -/
def specEngineVertex (v : Vertex) : Vertex :=
  { x := v.x, y := v.z, z := -v.y }

/-- One `name`/`value` entry of a repeated `settings` field. Values are
modelled as the strings they are serialized to (`str(value).encode()`). -/
structure SettingPair where
  name : String
  value : String
deriving DecidableEq, Repr

/-- The per-object data `_handlePerObjectSettings` reads off a node:
`callDecoration("getProfile")` (`none` when the decoration is absent, the
profile's `getAllSettingValues()` items otherwise) and
`callDecoration("getAllSettingValues")` (empty when falsy). -/
structure PerObjectData where
  profile : Option (List SettingPair)
  objectSettings : List SettingPair
deriving DecidableEq, Repr

/-- `StartSliceJob._handlePerObjectSettings`: append the profile's setting
values (when a profile decoration exists), then the node's own per-object
setting values, to the message's repeated `settings` field. -/
def handlePerObjectSettings (d : PerObjectData) : List SettingPair :=
  (match d.profile with
   | none => []
   | some ps => ps)
  ++ d.objectSettings

/-- Reading a flat `name`/`value` list as a map in which a later entry for
a key overwrites an earlier one: the value of the last entry for the key. -/
def lookupLast (ps : List SettingPair) (k : String) : Option String :=
  ((ps.filter (fun p => p.name = k)).getLast?).map (fun p => p.value)

/-- A scene node as the payload builder sees it: identity, scene-node
class test, mesh presence, build-area flag, world-transformed vertices,
its own per-object data, and its parent's group flag and per-object data
(used for `group[0].getParent()`). -/
structure NodeM where
  nid : Nat
  isSceneNode : Bool
  hasMeshVertices : Bool
  outsideBuildArea : Bool
  worldVertices : List Vertex
  perObject : PerObjectData
  parentIsGroup : Bool
  parentPerObject : PerObjectData
deriving DecidableEq, Repr

/-- One `objects` sub-message of an `object_lists` message. -/
structure ObjectMessage where
  oid : Nat
  vertices : List Vertex
  settings : List SettingPair
deriving DecidableEq, Repr

/-- One `object_lists` sub-message: its own repeated `settings` entries
(written before any object is added) and its `objects`. -/
structure GroupMessage where
  settings : List SettingPair
  objects : List ObjectMessage
deriving DecidableEq, Repr

/-- The per-group serialization loop of `StartSliceJob.run`: when the
first object's parent is a group node, run `_handlePerObjectSettings` on
the parent against the group message itself; then serialize each object
with its id, its transformed vertex buffer and its own per-object
settings. -/
def serializeGroup (group : List NodeM) : GroupMessage :=
  { settings :=
      match group.head? with
      | none => []
      | some first =>
        if first.parentIsGroup then handlePerObjectSettings first.parentPerObject
        else []
    objects := group.map (fun node =>
      { oid := node.nid
        vertices := engineVertices node.worldVertices
        settings := handlePerObjectSettings node.perObject }) }

/-! ## Part 5: gcode token expansion -/

/-- A parsed piece of a gcode template: a literal character run or a
`\x7bkey\x7d` replacement field. -/
inductive TemplatePart where
  | lit (s : String)
  | field (key : String)
deriving DecidableEq, Repr

/-- Parser mode: scanning literal text, or inside a replacement field with
the characters read so far (reversed). -/
inductive ParseMode where
  | text
  | inField (acc : List Char)

/-- Modelled from Python's stdlib `string.Formatter` parsing (an external
collaborator of `GcodeStartEndFormatter`), restricted to templates whose
replacement fields are plain named `\x7bkey\x7d` tokens: doubled braces
are literal braces, a lone closing brace or an unterminated field is a
`ValueError` (`none`). Numeric and auto-numbered positional fields, which
setting keys never produce, are outside the model and also map to `none`
(in `expandGcodeTokens` both land on the caught-failure path). -/
def parseTemplate : ParseMode → List Char → Option (List TemplatePart)
  | .text, [] => some []
  | .text, '{' :: '{' :: rest =>
    (parseTemplate .text rest).map (fun ps => .lit "\x7b" :: ps)
  | .text, '}' :: '}' :: rest =>
    (parseTemplate .text rest).map (fun ps => .lit "\x7d" :: ps)
  | .text, '{' :: rest => parseTemplate (.inField []) rest
  | .text, '}' :: _ => none
  | .text, c :: rest =>
    (parseTemplate .text rest).map (fun ps => .lit (String.mk [c]) :: ps)
  | .inField _, [] => none
  | .inField acc, '}' :: rest =>
    let ks := acc.reverse
    if ks.isEmpty || ks.all Char.isDigit then none
    else (parseTemplate .text rest).map (fun ps => .field (String.mk ks) :: ps)
  | .inField acc, c :: rest => parseTemplate (.inField (c :: acc)) rest
termination_by structural _ l => l

/-- Setting maps, as the kwargs dict passed to `fmt.format`: first entry
for a key wins (Python dicts hold one entry per key). -/
def lookupSetting (settings : List (String × String)) (k : String) : Option String :=
  (settings.find? (fun p => p.1 = k)).map (fun p => p.2)

/-- A recorded warning. -/
inductive Warning where
  | unknownPlaceholder (key : String)
  | expansionFailure
deriving DecidableEq, Repr

/-- `GcodeStartEndFormatter.get_value`, string-key branch: return
`kwargs[key]`, or on `KeyError` log a warning and echo the token back
literally. -/
def getValueStr (settings : List (String × String)) (key : String) :
    String × List Warning :=
  match lookupSetting settings key with
  | some v => (v, [])
  | none => ("\x7b" ++ key ++ "\x7d", [.unknownPlaceholder key])

/-- Render one parsed template part. -/
def renderPart (settings : List (String × String)) : TemplatePart → String × List Warning
  | .lit s => (s, [])
  | .field key => getValueStr settings key

/-- Render a parsed template: concatenate the rendered parts and collect
the warnings, in order. -/
def renderParts (settings : List (String × String)) (parts : List TemplatePart) :
    String × List Warning :=
  parts.foldl
    (fun acc p =>
      let r := renderPart settings p
      (acc.1 ++ r.1, acc.2 ++ r.2))
    ("", [])

/-- `fmt.format(value, **settings)` with the overriding formatter: parse,
then substitute each field via `get_value`. `none` is an uncaught
exception from the formatting machinery itself. -/
def formatTemplate (settings : List (String × String)) (tmpl : String) :
    Option (String × List Warning) :=
  (parseTemplate .text tmpl.data).map (renderParts settings)

/-- `StartSliceJob._expandGcodeTokens`: run the formatter; on any
exception log a warning and fall back to the original text verbatim. -/
def expandGcodeTokens (value : String) (settings : List (String × String)) :
    String × List Warning :=
  match formatTemplate settings value with
  | some r => r
  | none => (value, [.expansionFailure])

/-! ## Part 6: global settings collection and serialization -/

/-- A setting definition with its nested child definitions, as found in a
`DefinitionContainer`. -/
inductive SettingDefinition where
  | mk (key : String) (children : List SettingDefinition)

def SettingDefinition.key : SettingDefinition → String
  | .mk k _ => k

def SettingDefinition.children : SettingDefinition → List SettingDefinition
  | .mk _ cs => cs

/-- Dict insertion `d[k] = v`: overwrite the entry in place when the key
exists, append otherwise (Python dicts preserve insertion order for the
first insertion of a key). -/
def dictInsert (d : List SettingPair) (k v : String) : List SettingPair :=
  if d.any (fun p => p.name = k) then
    d.map (fun p => if p.name = k then { name := k, value := v } else p)
  else d ++ [{ name := k, value := v }]

def dictInsertAll (d : List SettingPair) (entries : List SettingPair) : List SettingPair :=
  entries.foldl (fun acc p => dictInsert acc p.name p.value) d

/-- Whether a key appears in a settings dict (`key in settings`). -/
def dictHasKey (d : List SettingPair) (k : String) : Bool :=
  d.any (fun p => p.name = k)

/-- `settings[key]` without a default: the entry's value. -/
def dictGet (d : List SettingPair) (k : String) : Option String :=
  (d.find? (fun p => p.name = k)).map (fun p => p.value)

mutual

/-- `StartSliceJob._getAllChildSettingValues`: the current stack value of
every descendant definition, children first, deeper keys overwriting. The
stack lookup `self._stack.getProperty(key, "value")` is the function
`lookup`, already stringified. -/
def getAllChildSettingValues (lookup : String → String) :
    SettingDefinition → List SettingPair
  | .mk _ children => childValuesLoop lookup [] children

/-- The `for child in definition.children` loop body of
`_getAllChildSettingValues`, threading the accumulated dict. -/
def childValuesLoop (lookup : String → String) (acc : List SettingPair) :
    List SettingDefinition → List SettingPair
  | [] => acc
  | child :: rest =>
    childValuesLoop lookup
      (dictInsertAll (dictInsert acc child.key (lookup child.key))
        (getAllChildSettingValues lookup child))
      rest

end

/-- `StartSliceJob._getAllSettingValues`: every definition key of every
definition container of the global stack, resolved through the stack. The
per-definition loop body is the same as the per-child loop body of
`_getAllChildSettingValues`, so it is shared. -/
def getAllSettingValues (lookup : String → String)
    (definitionContainers : List (List SettingDefinition)) : List SettingPair :=
  definitionContainers.foldl (fun acc defs => childValuesLoop lookup acc defs) []

mutual

/-- Whether a definition (or one of its descendants) defines a key. -/
def SettingDefinition.definesKey (k : String) : SettingDefinition → Bool
  | .mk key children => key = k || anyDefinesKey k children

/-- Whether any definition in a list (or a descendant) defines a key. -/
def anyDefinesKey (k : String) : List SettingDefinition → Bool
  | [] => false
  | d :: rest => d.definesKey k || anyDefinesKey k rest

end

/-- Substring test (`sub in s` on Python strings). -/
def listContainsSub (sub : List Char) : List Char → Bool
  | [] => sub.isPrefixOf ([] : List Char)
  | c :: rest => sub.isPrefixOf (c :: rest) || listContainsSub sub rest

def strContains (s sub : String) : Bool :=
  listContainsSub sub.data s.data

/-- `str(...)` of the two synthesized booleans. -/
def pyStrBool (b : Bool) : String :=
  if b then "True" else "False"

/-- A wire message: the standalone `SettingList`, or the `Slice` message
of object groups. -/
inductive Message where
  | settingList (settings : List SettingPair)
  | slice (groups : List GroupMessage)
deriving DecidableEq, Repr

/-- The serialized value of one global setting: gcode-valued keys undergo
token expansion against the full settings dict, all others are emitted as
their string representation (already strings here). -/
def serializeGlobalValue (settings : List SettingPair) (key value : String) : String :=
  if key = "machine_start_gcode" || key = "machine_end_gcode" then
    (expandGcodeTokens value (settings.map (fun p => (p.name, p.value)))).1
  else value

/-- `StartSliceJob._sendGlobalSettings`, given the collected settings
dict: read `settings["machine_start_gcode"]` (a `KeyError` escapes when
the key is absent), synthesize the two prepend flags, then emit one
`settings` sub-message per entry. -/
def sendGlobalSettings (settings : List SettingPair) : Except String Message :=
  match dictGet settings "machine_start_gcode" with
  | none => .error "machine_start_gcode"
  | some startGcode =>
    let s1 := dictInsert settings "material_bed_temp_prepend"
      (pyStrBool (!strContains startGcode "{material_bed_temperature}"))
    let s2 := dictInsert s1 "material_print_temp_prepend"
      (pyStrBool (!strContains startGcode "{material_print_temperature}"))
    .ok (.settingList (s2.map (fun p =>
      { name := p.name, value := serializeGlobalValue s2 p.name p.value })))

/-! ## Part 7: group building and the job driver -/

/-- The scene as the builder traverses it: the `print_sequence` value, the
top-level nodes in `OneAtATimeIterator` order (each bundled with
`getAllChildren()`), and the nodes in `DepthFirstIterator` order. -/
structure SceneM where
  printSequence : String
  oneAtATimeNodes : List (NodeM × List NodeM)
  depthFirstNodes : List NodeM

/-- The mesh filter used in both branches: the node is a plain
`SceneNode`, has mesh data, and its vertex array is not `None`. -/
def printableNode (n : NodeM) : Bool :=
  n.isSceneNode && n.hasMeshVertices

/-- The group-building phase of `StartSliceJob.run`. One-at-a-time: one
group per in-build-area top-level node, from its children plus itself,
keeping printable nodes; empty groups are dropped. Otherwise: a single
group of all printable, in-build-area nodes in depth-first order, only if
non-empty. -/
def buildObjectGroups (scene : SceneM) : List (List NodeM) :=
  if scene.printSequence = "one_at_a_time" then
    scene.oneAtATimeNodes.foldl
      (fun groups nc =>
        if nc.1.outsideBuildArea then groups
        else
          let tempList := (nc.2 ++ [nc.1]).filter printableNode
          if tempList.isEmpty then groups else groups ++ [tempList])
      []
  else
    let tempList := scene.depthFirstNodes.filter
      (fun n => printableNode n && !n.outsideBuildArea)
    if tempList.isEmpty then [] else [tempList]

/-- The outcome of one `StartSliceJob.run`: the messages transmitted over
the socket, in order, and the job result (`none` when `setResult` was
never called — the early no-op return — `some true` after a completed
slice submission). -/
structure JobOutcome where
  messages : List Message
  result : Option Bool
deriving DecidableEq, Repr

/-- `StartSliceJob.run` after scene lock release: build groups; when no
group was produced return without sending anything or setting a result;
otherwise send the global `SettingList`, then compose and send the `Slice`
message and set the result to success. A `KeyError` from the settings
serialization escapes the job. -/
def runJob (scene : SceneM) (lookup : String → String)
    (definitionContainers : List (List SettingDefinition)) : Except String JobOutcome :=
  let objectGroups := buildObjectGroups scene
  if objectGroups.isEmpty then .ok { messages := [], result := none }
  else
    match sendGlobalSettings (getAllSettingValues lookup definitionContainers) with
    | .error e => .error e
    | .ok settingMsg =>
      let sliceMsg := Message.slice (objectGroups.map serializeGroup)
      .ok { messages := [settingMsg, sliceMsg], result := some true }

/-! ## Claim-side definitions for the inheritance walk -/

/-- A container whose raw value is a `SettingFunction` at least one of
whose used keys is a real setting key of the stack. -/
def Container.isQualifyingFunction (allKeys : List String) : Container → Bool
  | .supported (some v) => v.qualifies allKeys
  | _ => false

/-- A container whose raw value is a literal (non-function) value — the
second flag of the claim, as the claim words it. -/
def Container.isLiteralValue : Container → Bool
  | .supported (some (.lit _)) => true
  | _ => false

/-- The containers the claim's walk inspects: everything up to and
including the first qualifying function-bearing container, at which the
scan stops. -/
def claimScannedContainers (allKeys : List String) : List Container → List Container
  | [] => []
  | c :: rest =>
    if c.isQualifyingFunction allKeys then [c]
    else c :: claimScannedContainers allKeys rest

/-- The claim's stated rule, following its words: true iff the inspected
containers include both a qualifying function layer and a literal
(non-function) value layer. -/
def claimedShouldShowInherit (allKeys : List String) (cs : List Container) : Bool :=
  let scanned := claimScannedContainers allKeys cs
  scanned.any (fun c => c.isQualifyingFunction allKeys)
    && scanned.any (fun c => c.isLiteralValue)

/-- A container with a non-`None` value that does not qualify as a
setting function: a literal, or a function none of whose used keys is a
real setting key. The walk records `has_non_function_value` at exactly
these containers. -/
def Container.isNonQualValue (allKeys : List String) : Container → Bool
  | .supported (some v) => !(v.qualifies allKeys)
  | _ => false

/-- The amended characterization of the walk: scan until the first
qualifying function-bearing container and return whether a non-`None`
non-qualifying value layer was seen before it (`seen` carries that flag);
no qualifying function at all yields false. -/
def amendedInheritScan (allKeys : List String) (seen : Bool) : List Container → Bool
  | [] => false
  | c :: rest =>
    if c.isQualifyingFunction allKeys then seen
    else amendedInheritScan allKeys (seen || c.isNonQualValue allKeys) rest

/-- The branch `_updateStack` takes, numbered as the spec numbers the
resolution algorithm: 1 no bound key, 2 no global stack, 3 single
extruder, 4 not settable per extruder, 5 non-negative limit-to-extruder,
6 active extruder. -/
def resolutionBranch (e : UpdateEnv) : Nat :=
  match e.key with
  | none => 1
  | some k =>
    if k = "" then 1
    else
      match e.globalStack with
      | none => 2
      | some gs =>
        if gs.machineExtruderCount ≤ 1 then 3
        else if !gs.settablePerExtruder then 4
        else
          match gs.limitToExtruder with
          | some n => if n ≥ 0 then 5 else 6
          | none => 6

/-! ## Supporting lemmas -/

theorem logger_not_in_module :
    curaPropertyProviderModuleNames.contains "Logger" = false := rfl

/-- The container loop of `_determineInherit` computes exactly the amended
scan: induction over the container list, threading the
`has_non_function_value` flag. -/
theorem inheritLoop_eq_amendedScan (allKeys : List String) (cs : List Container) (hnfv : Bool) :
    inheritLoop allKeys cs false hnfv = amendedInheritScan allKeys hnfv cs := by
  induction cs generalizing hnfv with
  | nil => simp [inheritLoop, amendedInheritScan]
  | cons c rest ih =>
    cases c with
    | unsupported =>
      simp [inheritLoop, amendedInheritScan, Container.isQualifyingFunction,
        Container.isNonQualValue, ih]
    | supported v =>
      cases v with
      | none =>
        simp [inheritLoop, amendedInheritScan, Container.isQualifyingFunction,
          Container.isNonQualValue, ih]
      | some sv =>
        by_cases hq : sv.qualifies allKeys <;>
          simp [inheritLoop, amendedInheritScan, Container.isQualifyingFunction,
            Container.isNonQualValue, hq, ih]

/-! ## Theorems -/

/-- C1 (counterexample): the spec's vertex map `(x, y, z) ↦ (x, z, -y)`
disagrees with the code at the vertex `(0, 0, 1)`: the code produces
`(0, -1, 0)` while the spec produces `(0, 1, 0)`. -/
theorem engine_vertex_transform_counterexample :
    engineVertices [Vertex.mk 0 0 1] = [Vertex.mk 0 (-1) 0]
    ∧ specEngineVertex (Vertex.mk 0 0 1) = Vertex.mk 0 1 0
    ∧ engineVertices [Vertex.mk 0 0 1] ≠ [specEngineVertex (Vertex.mk 0 0 1)] := by
  decide

/-- C1 (amended): each mesh vertex `(x, y, z)` is written to the slice
message as `(x, -z, y)`, and the vertex order is preserved: the `i`-th
output vertex is exactly the transform of the `i`-th input vertex. -/
theorem engine_vertex_transform (vs : List Vertex) (i : Nat) :
    (engineVertices vs)[i]? = (vs[i]?).map (fun v => Vertex.mk v.x (-v.z) v.y) := by
  simp [engineVertices, List.getElem?_map, swapYZ, negateY, Option.map_map]
  rfl

/-- C2 (counterexample): the claimed iff fails when a function using no
real setting key precedes the qualifying function: the code returns true
although the walk never sees a literal (non-function) value layer. The
top container holds `None` so that every initial guard passes. -/
theorem inherit_literal_rule_counterexample :
    determineInherit { resolve := none, state := .User, enabled := true }
      (.mk [.supported none,
            .supported (some (.func ["enum_option_token"])),
            .supported (some (.func ["wall_thickness"]))] none)
      ["wall_thickness", "wall_line_count"]
      = .ok true
    ∧ claimedShouldShowInherit ["wall_thickness", "wall_line_count"]
        (Stack.collectContainers
          (.mk [.supported none,
                .supported (some (.func ["enum_option_token"])),
                .supported (some (.func ["wall_thickness"]))] none))
      = false :=
  ⟨rfl, rfl⟩

/-- C2 (amended): for a key passing all initial guards,
`shouldShowInherit` is the amended scan over the target stack's and every
ancestor stack's containers in priority order: it stops at the first
qualifying function-bearing container and is true iff, before that
container, some layer carried a non-`None` value that does not itself
qualify (a literal, or a function none of whose used keys is a real
setting key of the stack). -/
theorem inherit_walk_characterization (props : KeyProps) (stack : Stack)
    (allKeys : List String) (tv : Option SettingValue)
    (h1 : props.resolve = none) (h2 : props.state = InstanceState.User)
    (h3 : props.enabled = true) (htop : stack.getTop = some (.supported tv))
    (hfn : ∀ u, tv ≠ some (.func u)) :
    determineInherit props stack allKeys
      = .ok (amendedInheritScan allKeys false stack.collectContainers) := by
  unfold determineInherit
  rw [h1, h2, h3]
  simp only [Option.isSome_none, Bool.false_eq_true, if_false, ne_eq,
    not_true_eq_false, Bool.not_true, htop]
  cases tv with
  | none => simp [inheritLoop_eq_amendedScan]
  | some sv =>
    cases sv with
    | lit s => simp [inheritLoop_eq_amendedScan]
    | func u => exact absurd rfl (hfn u)

/-- Witness for C2: a literal layer followed by a qualifying function
layer yields true, via the amended characterization. -/
theorem inherit_walk_characterization_witness :
    determineInherit { resolve := none, state := .User, enabled := true }
      (.mk [.supported (some (.lit "0.2")),
            .supported (some (.func ["infill_sparse_density"]))] none)
      ["infill_sparse_density"]
      = .ok true :=
  (inherit_walk_characterization
      { resolve := none, state := .User, enabled := true }
      (.mk [.supported (some (.lit "0.2")),
            .supported (some (.func ["infill_sparse_density"]))] none)
      ["infill_sparse_density"] (some (.lit "0.2"))
      rfl rfl rfl rfl (by intro u h; cases h)).trans rfl

/-- C3: in the `limit_to_extruder` branch with no extruder at the
requested index, `_updateStack` evaluates the name `Logger`, which the
module never imports, so the pass raises `NameError` instead of logging
the intended warning. -/
theorem missing_extruder_raises_name_error :
    curaPropertyProviderModuleNames.contains "Logger" = false
    ∧ updateStack
        { key := some "support_extruder"
          globalStack := some { machineExtruderCount := 2, settablePerExtruder := true,
                                limitToExtruder := some 0 }
          extruders := []
          activeExtruderStackId := "e0"
          inheritEnv := { props := { resolve := none, state := .User, enabled := true },
                          stack := .mk [] none, allKeys := [] } }
        { containerStackId := some "global", shouldShowInherit := false }
      = .error .nameErrorLogger :=
  ⟨rfl, rfl⟩

/-- In branch 6 the pass runs `setContainerStackId(activeExtruderStackId)`
followed by the inherit recomputation. -/
theorem updateStack_branch6 (e : UpdateEnv) (st : ProviderState)
    (h : resolutionBranch e = 6) :
    updateStack e st = updateStackActiveBranch e st := by
  rcases e with ⟨key, gstack, exts, act, ienv⟩
  cases key with
  | none => simp [resolutionBranch] at h
  | some k =>
    by_cases hk : k = ""
    · simp [resolutionBranch, hk] at h
    · cases gstack with
      | none => simp [resolutionBranch, hk] at h
      | some gs =>
        by_cases hc : gs.machineExtruderCount ≤ 1
        · simp [resolutionBranch, hk, hc] at h
        · by_cases hs : gs.settablePerExtruder
          · cases hl : gs.limitToExtruder with
            | none => simp [updateStack, hk, hc, hs, hl]
            | some n =>
              by_cases hn : n ≥ 0
              · simp [resolutionBranch, hk, hc, hs, hl, hn] at h
              · simp [updateStack, hk, hc, hs, hl, hn]
          · simp [resolutionBranch, hk, hc, hs] at h

/-- Outside branch 6, a successful pass never touches the cached
`shouldShowInherit` flag. -/
theorem updateStack_not_branch6_flag (e : UpdateEnv) (st st2 : ProviderState)
    (h : resolutionBranch e ≠ 6) (hr : updateStack e st = .ok st2) :
    st2.shouldShowInherit = st.shouldShowInherit := by
  rcases e with ⟨key, gstack, exts, act, ienv⟩
  cases key with
  | none => simp [updateStack] at hr; rw [← hr]
  | some k =>
    by_cases hk : k = ""
    · simp [updateStack, hk] at hr; rw [← hr]
    · cases gstack with
      | none => simp [updateStack, hk] at hr; rw [← hr]
      | some gs =>
        by_cases hc : gs.machineExtruderCount ≤ 1
        · simp [updateStack, hk, hc] at hr; rw [← hr]
        · by_cases hs : gs.settablePerExtruder
          · cases hl : gs.limitToExtruder with
            | none => exact absurd (by simp [resolutionBranch, hk, hc, hs, hl]) h
            | some n =>
              by_cases hn : n ≥ 0
              · cases hge : getExtruderStack exts n with
                | none =>
                  have hlog : "Logger" ∉ curaPropertyProviderModuleNames := by decide
                  simp [updateStack, hk, hc, hs, hl, hn, hge, hlog] at hr
                | some sid =>
                  simp [updateStack, hk, hc, hs, hl, hn, hge] at hr
                  rw [← hr]
              · exact absurd (by simp [resolutionBranch, hk, hc, hs, hl, hn]) h
          · simp [updateStack, hk, hc, hs] at hr; rw [← hr]

/-- A successful pass is idempotent: rerunning it from the state it
produced reproduces that state. -/
theorem updateStack_idem (e : UpdateEnv) (st st2 : ProviderState)
    (hr : updateStack e st = .ok st2) : updateStack e st2 = .ok st2 := by
  rcases e with ⟨key, gstack, exts, act, ienv⟩
  cases key with
  | none => simp [updateStack]
  | some k =>
    by_cases hk : k = ""
    · simp [updateStack, hk]
    · cases gstack with
      | none => simp [updateStack, hk]
      | some gs =>
        by_cases hc : gs.machineExtruderCount ≤ 1
        · simp [updateStack, hk, hc] at hr ⊢
          rw [← hr]
        · by_cases hs : gs.settablePerExtruder
          · cases hl : gs.limitToExtruder with
            | none =>
              cases he : ienv.eval with
              | error err =>
                simp [updateStack, updateStackActiveBranch, hk, hc, hs, hl, he] at hr
              | ok b =>
                simp [updateStack, updateStackActiveBranch, hk, hc, hs, hl, he] at hr ⊢
                exact hr
            | some n =>
              by_cases hn : n ≥ 0
              · cases hge : getExtruderStack exts n with
                | none =>
                  have hlog : "Logger" ∉ curaPropertyProviderModuleNames := by decide
                  simp [updateStack, hk, hc, hs, hl, hn, hge, hlog] at hr
                | some sid =>
                  simp [updateStack, hk, hc, hs, hl, hn, hge] at hr ⊢
                  rw [← hr]
              · cases he : ienv.eval with
                | error err =>
                  simp [updateStack, updateStackActiveBranch, hk, hc, hs, hl, hn, he] at hr
                | ok b =>
                  simp [updateStack, updateStackActiveBranch, hk, hc, hs, hl, hn, he] at hr ⊢
                  exact hr
          · simp [updateStack, hk, hc, hs] at hr ⊢
            rw [← hr]

/-- C6 (counterexample): resolution through branch 3 (single extruder)
does not recompute `shouldShowInherit`: the cached flag stays false even
though the recomputation on the same inputs yields true. -/
theorem branch3_inherit_recompute_counterexample :
    resolutionBranch
        { key := some "layer_height"
          globalStack := some { machineExtruderCount := 1, settablePerExtruder := true,
                                limitToExtruder := none }
          extruders := []
          activeExtruderStackId := "e0"
          inheritEnv := { props := { resolve := none, state := .User, enabled := true },
                          stack := .mk [.supported (some (.lit "0.2")),
                                        .supported (some (.func ["infill_sparse_density"]))] none,
                          allKeys := ["infill_sparse_density"] } }
      = 3
    ∧ InheritEnv.eval
        { props := { resolve := none, state := .User, enabled := true },
          stack := .mk [.supported (some (.lit "0.2")),
                        .supported (some (.func ["infill_sparse_density"]))] none,
          allKeys := ["infill_sparse_density"] }
      = .ok true
    ∧ updateStack
        { key := some "layer_height"
          globalStack := some { machineExtruderCount := 1, settablePerExtruder := true,
                                limitToExtruder := none }
          extruders := []
          activeExtruderStackId := "e0"
          inheritEnv := { props := { resolve := none, state := .User, enabled := true },
                          stack := .mk [.supported (some (.lit "0.2")),
                                        .supported (some (.func ["infill_sparse_density"]))] none,
                          allKeys := ["infill_sparse_density"] } }
        { containerStackId := none, shouldShowInherit := false }
      = .ok { containerStackId := some "global", shouldShowInherit := false } :=
  ⟨rfl, rfl, rfl⟩

/-- C6 (amended): `shouldShowInherit` is recomputed exactly when the pass
takes branch 6 — there the result is the active extruder's stack with the
freshly computed flag — while every other successful pass leaves the
cached flag untouched; and a successful pass is idempotent, so identical
inputs yield the identical target stack and booleans. -/
theorem update_stack_recompute (e : UpdateEnv) (st : ProviderState) :
    (resolutionBranch e = 6 →
      ∀ b, e.inheritEnv.eval = .ok b →
        updateStack e st
          = .ok { containerStackId := some e.activeExtruderStackId, shouldShowInherit := b })
    ∧ (resolutionBranch e ≠ 6 →
      ∀ st2, updateStack e st = .ok st2 → st2.shouldShowInherit = st.shouldShowInherit)
    ∧ (∀ st2, updateStack e st = .ok st2 → updateStack e st2 = .ok st2) := by
  refine ⟨?_, ?_, ?_⟩
  · intro h6 b hb
    rw [updateStack_branch6 e st h6]
    simp [updateStackActiveBranch, hb]
  · intro h6 st2 hr
    exact updateStack_not_branch6_flag e st st2 h6 hr
  · intro st2 hr
    exact updateStack_idem e st st2 hr

/-- Witness for C6 at a concrete branch-6 input: no limit set, multiple
extruders, flag recomputed to true. -/
theorem update_stack_recompute_witness :
    updateStack
      { key := some "infill_sparse_density"
        globalStack := some { machineExtruderCount := 2, settablePerExtruder := true,
                              limitToExtruder := none }
        extruders := ["e0", "e1"]
        activeExtruderStackId := "e1"
        inheritEnv := { props := { resolve := none, state := .User, enabled := true },
                        stack := .mk [.supported (some (.lit "20")),
                                      .supported (some (.func ["infill_line_distance"]))] none,
                        allKeys := ["infill_line_distance"] } }
      { containerStackId := none, shouldShowInherit := false }
    = .ok { containerStackId := some "e1", shouldShowInherit := true } :=
  (update_stack_recompute
    { key := some "infill_sparse_density"
      globalStack := some { machineExtruderCount := 2, settablePerExtruder := true,
                            limitToExtruder := none }
      extruders := ["e0", "e1"]
      activeExtruderStackId := "e1"
      inheritEnv := { props := { resolve := none, state := .User, enabled := true },
                      stack := .mk [.supported (some (.lit "20")),
                                    .supported (some (.func ["infill_line_distance"]))] none,
                      allKeys := ["infill_line_distance"] } }
    { containerStackId := none, shouldShowInherit := false }).1 rfl true rfl

/-- C7: `_determineInherit` returns false whenever the key's `resolve`
property is non-null, or its `state` is not `User`, or it is not
`enabled`, or the top container's raw value is a `SettingFunction` —
whatever the remaining containers of the stack chain hold. -/
theorem inherit_guards_force_false (props : KeyProps) (stack : Stack) (allKeys : List String)
    (h : props.resolve.isSome = true
      ∨ props.state ≠ InstanceState.User
      ∨ props.enabled = false
      ∨ ∃ u, stack.getTop = some (.supported (some (.func u)))) :
    determineInherit props stack allKeys = .ok false := by
  unfold determineInherit
  rcases h with h | h | h | ⟨u, h⟩
  · simp [h]
  · by_cases hr : props.resolve.isSome <;> simp [hr, h]
  · by_cases hr : props.resolve.isSome <;>
      by_cases hs : props.state = InstanceState.User <;> simp [hr, hs, h]
  · by_cases hr : props.resolve.isSome <;>
      by_cases hs : props.state = InstanceState.User <;>
      by_cases he : props.enabled <;> simp [hr, hs, he, h]

/-- Witness for C7 at a concrete input: a non-null `resolve` alone forces
false over a stack whose walk would otherwise yield true. -/
theorem inherit_guards_force_false_witness :
    (Option.isSome (some "resolve_fn") = true
      ∨ InstanceState.User ≠ InstanceState.User ∨ True)
    ∧ determineInherit { resolve := some "resolve_fn", state := .User, enabled := true }
        (.mk [.supported (some (.lit "0.2")),
              .supported (some (.func ["layer_height"]))] none)
        ["layer_height"]
      = .ok false := by
  refine ⟨Or.inl rfl, ?_⟩
  exact inherit_guards_force_false _ _ _ (Or.inl rfl)

/-- C8: with a bound key, an available global stack and
`machine_extruder_count <= 1`, resolution targets the global stack, for
every `settable_per_extruder` and `limit_to_extruder` combination. -/
theorem single_extruder_targets_global (e : UpdateEnv) (st : ProviderState) (k : String)
    (gs : GlobalStackProps) (hk : e.key = some k) (hke : k ≠ "")
    (hg : e.globalStack = some gs) (hc : gs.machineExtruderCount ≤ 1) :
    updateStack e st = .ok { st with containerStackId := some "global" } := by
  simp [updateStack, hk, hke, hg, hc]

/-- Witness for C8 at a concrete input with `settable_per_extruder` false
and a non-negative `limit_to_extruder`, both overridden by the
single-extruder rule. -/
theorem single_extruder_targets_global_witness :
    updateStack
      { key := some "layer_height"
        globalStack := some { machineExtruderCount := 1, settablePerExtruder := false,
                              limitToExtruder := some 3 }
        extruders := ["e0"]
        activeExtruderStackId := "e0"
        inheritEnv := { props := { resolve := none, state := .User, enabled := true },
                        stack := .mk [] none, allKeys := [] } }
      { containerStackId := none, shouldShowInherit := true }
    = .ok { containerStackId := some "global", shouldShowInherit := true } := by
  exact single_extruder_targets_global _ _ "layer_height" _ rfl (by decide) rfl (by decide)

/-- A key that occurs in a filtered suffix keeps its last occurrence when
a prefix list is prepended. -/
theorem lookupLast_append_of_mem (pre os : List SettingPair) (k : String)
    (h : os.any (fun p => p.name = k) = true) :
    lookupLast (pre ++ os) k = lookupLast os k := by
  unfold lookupLast
  rw [List.filter_append]
  rw [List.getLast?_append_of_ne_nil]
  intro hnil
  rw [List.filter_eq_nil_iff] at hnil
  rw [List.any_eq_true] at h
  obtain ⟨p, hp, hpk⟩ := h
  exact hnil p hp hpk

/-- C4: each serialized object's settings list is the object's profile
values followed by its raw per-object overrides, in that order; under the
flattening convention that a later entry for a key overwrites an earlier
one, a key present among the overrides resolves to its override value;
and a group whose first object's parent is a "group" node gets that
node's own entries (profile first) written into the group's message,
before the objects with their own overrides are appended. -/
theorem per_object_settings_message (first : NodeM) (rest : List NodeM)
    (d : PerObjectData) (ps : List SettingPair) (k : String) :
    ((serializeGroup (first :: rest)).objects.map (fun o => o.settings)
      = (first :: rest).map (fun n => handlePerObjectSettings n.perObject))
    ∧ (d.profile = some ps → handlePerObjectSettings d = ps ++ d.objectSettings)
    ∧ (d.profile = none → handlePerObjectSettings d = d.objectSettings)
    ∧ (d.objectSettings.any (fun p => p.name = k) = true →
        lookupLast (handlePerObjectSettings d) k = lookupLast d.objectSettings k)
    ∧ (first.parentIsGroup = true →
        (serializeGroup (first :: rest)).settings
          = handlePerObjectSettings first.parentPerObject) := by
  refine ⟨?_, ?_, ?_, ?_, ?_⟩
  · simp [serializeGroup]
  · intro h; simp [handlePerObjectSettings, h]
  · intro h; simp [handlePerObjectSettings, h]
  · intro h
    unfold handlePerObjectSettings
    cases d.profile with
    | none => simp
    | some pro => exact lookupLast_append_of_mem pro d.objectSettings k h
  · intro h; simp [serializeGroup, h]

/-- Witness for C4, on the spec's example: a group node with profile
`layer_height = 0.2` and one child object with override `speed = 50`,
plus a profile/override duplicate showing last-wins resolution. -/
theorem per_object_settings_message_witness :
    ((serializeGroup
        [{ nid := 1, isSceneNode := true, hasMeshVertices := true,
           outsideBuildArea := false, worldVertices := [],
           perObject := { profile := none,
                          objectSettings := [{ name := "speed", value := "50" }] },
           parentIsGroup := true,
           parentPerObject :=
             { profile := some [{ name := "layer_height", value := "0.2" }],
               objectSettings := [] } }]).settings
      = [{ name := "layer_height", value := "0.2" }]
        ++ ([] : List SettingPair))
    ∧ handlePerObjectSettings
        { profile := some [{ name := "layer_height", value := "0.2" }],
          objectSettings := [{ name := "layer_height", value := "0.15" }] }
      = [{ name := "layer_height", value := "0.2" },
         { name := "layer_height", value := "0.15" }]
    ∧ lookupLast
        (handlePerObjectSettings
          { profile := some [{ name := "layer_height", value := "0.2" }],
            objectSettings := [{ name := "layer_height", value := "0.15" }] })
        "layer_height"
      = some "0.15" := by
  refine ⟨?_, ?_, ?_⟩
  · exact ((per_object_settings_message
      { nid := 1, isSceneNode := true, hasMeshVertices := true,
        outsideBuildArea := false, worldVertices := [],
        perObject := { profile := none,
                       objectSettings := [{ name := "speed", value := "50" }] },
        parentIsGroup := true,
        parentPerObject :=
          { profile := some [{ name := "layer_height", value := "0.2" }],
            objectSettings := [] } } []
      { profile := none, objectSettings := [] } [] "").2.2.2.2 rfl).trans rfl
  · exact ((per_object_settings_message
      { nid := 1, isSceneNode := true, hasMeshVertices := true,
        outsideBuildArea := false, worldVertices := [],
        perObject := { profile := none, objectSettings := [] },
        parentIsGroup := false,
        parentPerObject := { profile := none, objectSettings := [] } } []
      { profile := some [{ name := "layer_height", value := "0.2" }],
        objectSettings := [{ name := "layer_height", value := "0.15" }] }
      [{ name := "layer_height", value := "0.2" }] "layer_height").2.1 rfl).trans rfl
  · exact ((per_object_settings_message
      { nid := 1, isSceneNode := true, hasMeshVertices := true,
        outsideBuildArea := false, worldVertices := [],
        perObject := { profile := none, objectSettings := [] },
        parentIsGroup := false,
        parentPerObject := { profile := none, objectSettings := [] } } []
      { profile := some [{ name := "layer_height", value := "0.2" }],
        objectSettings := [{ name := "layer_height", value := "0.15" }] }
      [{ name := "layer_height", value := "0.2" }] "layer_height").2.2.2.1
      (by decide)).trans rfl

/-- Whether any definition container (or a descendant definition inside
one) defines the key. -/
def anyContainerDefinesKey (defs : List (List SettingDefinition)) (k : String) : Bool :=
  defs.any (fun l => anyDefinesKey k l)

/-- Overwriting or appending an entry never changes the other names. -/
theorem dictHasKey_dictInsert (d : List SettingPair) (k1 v k : String) :
    dictHasKey (dictInsert d k1 v) k = (dictHasKey d k || decide (k1 = k)) := by
  unfold dictHasKey dictInsert
  by_cases hmem : d.any (fun p => p.name = k1) = true
  · simp only [hmem, if_true]
    have hfun : ((fun p : SettingPair => decide (p.name = k))
          ∘ (fun p => if p.name = k1 then SettingPair.mk k1 v else p))
        = fun p : SettingPair => decide (p.name = k) := by
      funext p
      by_cases h : p.name = k1 <;> simp [h]
    rw [List.any_map, hfun]
    by_cases heq : k1 = k
    · subst heq
      simp [hmem]
    · simp [heq]
  · rw [Bool.not_eq_true] at hmem
    simp [hmem, List.any_append]

/-- Inserting a batch of entries adds exactly their names. -/
theorem dictHasKey_dictInsertAll (es : List SettingPair) (d : List SettingPair) (k : String) :
    dictHasKey (dictInsertAll d es) k = (dictHasKey d k || dictHasKey es k) := by
  induction es generalizing d with
  | nil => simp [dictInsertAll, dictHasKey]
  | cons e rest ih =>
    show dictHasKey (dictInsertAll (dictInsert d e.name e.value) rest) k = _
    rw [ih, dictHasKey_dictInsert]
    simp [dictHasKey, Bool.or_assoc]

mutual

/-- The keys collected below a definition are exactly the keys its
descendant definitions define. -/
theorem dictHasKey_getAllChildSettingValues (lookup : String → String) (k : String)
    (d : SettingDefinition) :
    dictHasKey (getAllChildSettingValues lookup d) k = anyDefinesKey k d.children := by
  cases d with
  | mk key children =>
    show dictHasKey (childValuesLoop lookup [] children) k = _
    rw [dictHasKey_childValuesLoop]
    simp [dictHasKey, SettingDefinition.children]

/-- The definition loop adds each definition's own key and all of its
descendants' keys to the accumulated dict. -/
theorem dictHasKey_childValuesLoop (lookup : String → String) (k : String)
    (cs : List SettingDefinition) (acc : List SettingPair) :
    dictHasKey (childValuesLoop lookup acc cs) k = (dictHasKey acc k || anyDefinesKey k cs) := by
  cases cs with
  | nil => simp [childValuesLoop, anyDefinesKey]
  | cons child rest =>
    show dictHasKey (childValuesLoop lookup
        (dictInsertAll (dictInsert acc child.key (lookup child.key))
          (getAllChildSettingValues lookup child)) rest) k = _
    rw [dictHasKey_childValuesLoop lookup k rest, dictHasKey_dictInsertAll,
      dictHasKey_dictInsert, dictHasKey_getAllChildSettingValues]
    cases child with
    | mk ckey cchildren =>
      simp [anyDefinesKey, SettingDefinition.definesKey, SettingDefinition.key,
        SettingDefinition.children, Bool.or_assoc]

end

/-- The key set of the full collection is the set of keys some definition
container defines. -/
theorem dictHasKey_getAllSettingValues (lookup : String → String) (k : String)
    (dcs : List (List SettingDefinition)) (acc : List SettingPair) :
    dictHasKey (dcs.foldl (fun a defs => childValuesLoop lookup a defs) acc) k
      = (dictHasKey acc k || anyContainerDefinesKey dcs k) := by
  induction dcs generalizing acc with
  | nil => simp [anyContainerDefinesKey]
  | cons defs rest ih =>
    simp only [List.foldl_cons]
    rw [ih, dictHasKey_childValuesLoop]
    simp [anyContainerDefinesKey, Bool.or_assoc]

/-- A dict lookup succeeds exactly on present keys. -/
theorem dictGet_isSome (d : List SettingPair) (k : String) :
    (dictGet d k).isSome = dictHasKey d k := by
  induction d with
  | nil => rfl
  | cons p rest ih =>
    by_cases h : p.name = k
    · simp [dictGet, dictHasKey, List.find?_cons, h]
    · simp only [dictGet, dictHasKey] at ih ⊢
      rw [List.find?_cons_of_neg _ (by simp [h])]
      simp [h, ih]

/-- C10: serializing the global settings reads
`settings["machine_start_gcode"]` before any message entry is built: when
no definition container reachable from the global stack defines that key,
the serialization raises the key-lookup error (no `SettingList` message is
produced); when some definition defines it, serialization succeeds. -/
theorem machine_start_gcode_precondition (lookup : String → String)
    (defs : List (List SettingDefinition)) :
    (anyContainerDefinesKey defs "machine_start_gcode" = false →
      sendGlobalSettings (getAllSettingValues lookup defs) = .error "machine_start_gcode")
    ∧ (anyContainerDefinesKey defs "machine_start_gcode" = true →
      ∃ m, sendGlobalSettings (getAllSettingValues lookup defs) = .ok m) := by
  have hkey : (dictGet (getAllSettingValues lookup defs) "machine_start_gcode").isSome
      = anyContainerDefinesKey defs "machine_start_gcode" := by
    rw [dictGet_isSome]
    unfold getAllSettingValues
    rw [dictHasKey_getAllSettingValues]
    simp [dictHasKey]
  constructor
  · intro h
    rw [h] at hkey
    cases hd : dictGet (getAllSettingValues lookup defs) "machine_start_gcode" with
    | none => simp [sendGlobalSettings, hd]
    | some v => rw [hd] at hkey; simp at hkey
  · intro h
    rw [h] at hkey
    cases hd : dictGet (getAllSettingValues lookup defs) "machine_start_gcode" with
    | none => rw [hd] at hkey; simp at hkey
    | some v =>
      simp only [sendGlobalSettings, hd]
      exact ⟨_, rfl⟩

/-- Witness for C10: a container set without `machine_start_gcode` makes
serialization fail with the key error; adding a definition for it makes
serialization succeed. -/
theorem machine_start_gcode_precondition_witness :
    sendGlobalSettings (getAllSettingValues (fun _ => "G28") [[.mk "layer_height" []]])
      = .error "machine_start_gcode"
    ∧ ∃ m, sendGlobalSettings (getAllSettingValues (fun _ => "G28")
        [[.mk "machine_start_gcode" [.mk "machine_end_gcode" []]]]) = .ok m := by
  constructor
  · exact (machine_start_gcode_precondition (fun _ => "G28") [[.mk "layer_height" []]]).1
      (by simp [anyContainerDefinesKey, anyDefinesKey, SettingDefinition.definesKey])
  · exact (machine_start_gcode_precondition (fun _ => "G28")
      [[.mk "machine_start_gcode" [.mk "machine_end_gcode" []]]]).2
      (by simp [anyContainerDefinesKey, anyDefinesKey, SettingDefinition.definesKey])

/-- The claim's per-token rule, from its words: a token whose key is
present in the settings map expands to the stringified value of that
setting; a token whose key is absent is echoed back literally as
`\x7bkey\x7d`. -/
def claimedTokenExpansion (settings : List (String × String)) : TemplatePart → String
  | .lit s => s
  | .field key =>
    match lookupSetting settings key with
    | some v => v
    | none => "\x7b" ++ key ++ "\x7d"

/-- Rendering one part produces exactly the claimed expansion text. -/
theorem renderPart_fst (settings : List (String × String)) (p : TemplatePart) :
    (renderPart settings p).1 = claimedTokenExpansion settings p := by
  cases p with
  | lit s => rfl
  | field key =>
    simp only [renderPart, getValueStr, claimedTokenExpansion]
    cases lookupSetting settings key <;> rfl

/-- Folding string concatenation from a seed prepends the seed. -/
theorem string_foldl_append (l : List String) (s : String) :
    l.foldl (fun r t => r ++ t) s = s ++ l.foldl (fun r t => r ++ t) "" := by
  induction l generalizing s with
  | nil => simp
  | cons t rest ih =>
    simp only [List.foldl_cons]
    rw [ih (s ++ t), ih ("" ++ t)]
    simp [String.append_assoc]

theorem string_join_cons (a : String) (l : List String) :
    String.join (a :: l) = a ++ String.join l := by
  simp only [String.join, List.foldl_cons]
  rw [string_foldl_append l ("" ++ a)]
  simp

/-- The render fold, with its accumulator generalized. -/
theorem renderParts_loop (settings : List (String × String)) (parts : List TemplatePart)
    (s0 : String) (w0 : List Warning) :
    parts.foldl
        (fun acc p =>
          let r := renderPart settings p
          (acc.1 ++ r.1, acc.2 ++ r.2))
        (s0, w0)
      = (s0 ++ String.join (parts.map (fun p => (renderPart settings p).1)),
         w0 ++ (parts.map (fun p => (renderPart settings p).2)).flatten) := by
  induction parts generalizing s0 w0 with
  | nil => simp [String.join]
  | cons p rest ih =>
    simp only [List.foldl_cons, List.map_cons, List.flatten_cons, ih, string_join_cons]
    simp [String.append_assoc]

/-- The rendered output and warning list, part by part. -/
theorem renderParts_spec (settings : List (String × String)) (parts : List TemplatePart) :
    renderParts settings parts
      = (String.join (parts.map (fun p => (renderPart settings p).1)),
         (parts.map (fun p => (renderPart settings p).2)).flatten) := by
  unfold renderParts
  rw [renderParts_loop]
  simp

/-- C5: when the template parses, expansion emits each literal run
verbatim and each token according to the claimed rule — present keys
replaced by their values, absent keys echoed back literally — and records
an unknown-placeholder warning for every token whose key is absent; when
the formatter fails on the template, the original text is returned
verbatim with a recorded warning, and no error escapes in either case. -/
theorem gcode_token_expansion (settings : List (String × String)) (tmpl : String) :
    (∀ parts, parseTemplate .text tmpl.data = some parts →
      (expandGcodeTokens tmpl settings).1
          = String.join (parts.map (claimedTokenExpansion settings))
        ∧ ∀ key, TemplatePart.field key ∈ parts → lookupSetting settings key = none →
            Warning.unknownPlaceholder key ∈ (expandGcodeTokens tmpl settings).2)
    ∧ (parseTemplate .text tmpl.data = none →
        expandGcodeTokens tmpl settings = (tmpl, [Warning.expansionFailure])) := by
  constructor
  · intro parts hp
    have hexp : expandGcodeTokens tmpl settings = renderParts settings parts := by
      simp [expandGcodeTokens, formatTemplate, hp]
    constructor
    · rw [hexp, renderParts_spec]
      simp only [renderPart_fst]
    · intro key hmem hnone
      rw [hexp, renderParts_spec]
      simp only [List.mem_flatten, List.mem_map]
      refine ⟨[Warning.unknownPlaceholder key], ⟨.field key, hmem, ?_⟩, by simp⟩
      simp [renderPart, getValueStr, hnone]
  · intro hp
    simp [expandGcodeTokens, formatTemplate, hp]

/-- Witness for C5 at the spec's two examples: a present key is replaced
by its value, an unknown key is echoed literally with a warning. -/
theorem gcode_token_expansion_witness :
    (expandGcodeTokens "M140 S{material_bed_temperature}"
        [("material_bed_temperature", "60")]).1 = "M140 S60"
    ∧ (expandGcodeTokens "{foo}" [("material_bed_temperature", "60")]).1 = "{foo}"
    ∧ Warning.unknownPlaceholder "foo"
        ∈ (expandGcodeTokens "{foo}" [("material_bed_temperature", "60")]).2 := by
  refine ⟨?_, ?_, ?_⟩
  · exact (((gcode_token_expansion [("material_bed_temperature", "60")]
      "M140 S{material_bed_temperature}").1
      [.lit "M", .lit "1", .lit "4", .lit "0", .lit " ", .lit "S",
       .field "material_bed_temperature"] (by rfl)).1).trans rfl
  · exact (((gcode_token_expansion [("material_bed_temperature", "60")] "{foo}").1
      [.field "foo"] (by rfl)).1).trans rfl
  · exact ((gcode_token_expansion [("material_bed_temperature", "60")] "{foo}").1
      [.field "foo"] (by rfl)).2 "foo" (by simp) rfl

/-- C9: a run that produces zero object groups transmits no message at
all — neither the `SettingList` nor the `Slice` message — raises nothing,
and ends with the job result still unset (a neutral no-op, not an
error). -/
theorem zero_groups_noop (scene : SceneM) (lookup : String → String)
    (defs : List (List SettingDefinition)) (h : buildObjectGroups scene = []) :
    runJob scene lookup defs = .ok { messages := [], result := none } := by
  simp [runJob, h]

/-- Witness for C9: a scene whose only node is outside the build area
yields zero groups and a no-op run. -/
theorem zero_groups_noop_witness :
    runJob
      { printSequence := ""
        oneAtATimeNodes := []
        depthFirstNodes := [{ nid := 7, isSceneNode := true, hasMeshVertices := true,
                              outsideBuildArea := true, worldVertices := [Vertex.mk 1 2 3],
                              perObject := { profile := none, objectSettings := [] },
                              parentIsGroup := false,
                              parentPerObject := { profile := none, objectSettings := [] } }] }
      (fun _ => "") [] = .ok { messages := [], result := none } := by
  exact zero_groups_noop _ _ _ (by decide)

end Cura
